import Mathlib

/-
Verification of the Ecommerce API service (src/main.py).

The service is a thin FastAPI layer over a document store.  We embed the
HTTP handlers as pure Lean functions over an explicit storage state.  The
storage gateway (the `database` module: `db`, `create_document`,
`get_documents`) is not part of the provided sources, so those operations
are modelled from the specification of the Storage Gateway (spec section
4.1): `insert` returns a fresh identifier and fails with StorageUnavailable
when no connection exists; `findOne` returns the first match; `findMany`
returns at most `limit` matching documents in store order.
-/

namespace Ecommerce

/-- Store-native document identifier (Mongo ObjectId), modelled as a natural
number.  Its transport rendering `str(ObjectId)` is modelled by `objectIdStr`. -/
structure ObjectId where
  oid : Nat
deriving DecidableEq, Repr

/-- Python `str(...)` applied to an ObjectId: an injective string rendering. -/
def objectIdStr (i : ObjectId) : String := toString i.oid

/-- A value occupying the `_id` slot of a JSON response document: either the
store-native identifier or its string rendering (after `it["_id"] = str(it["_id"])`). -/
inductive IdValue where
  | nativeId (i : ObjectId)
  | strId (s : String)
deriving DecidableEq, Repr

/-- Whether an `_id` value is in string form. -/
def IdValue.isStr : IdValue → Bool
  | .strId _ => true
  | .nativeId _ => false

/-- Request body of POST /api/categories (pydantic model CreateCategory). -/
structure CreateCategory where
  name : String
  slug : String
  image : Option String := none
deriving DecidableEq, Repr

/-- Request body of POST /api/products (pydantic model CreateProduct). -/
structure CreateProduct where
  title : String
  description : Option String := none
  price : Rat
  category : String
  image : Option String := none
  in_stock : Bool := true
deriving DecidableEq, Repr

/-- A category document as stored in the `category` collection. -/
structure CategoryDoc where
  oid : ObjectId
  name : String
  slug : String
  image : Option String
deriving DecidableEq, Repr

/-- A product document as stored in the `product` collection. -/
structure ProductDoc where
  oid : ObjectId
  title : String
  description : Option String
  price : Rat
  category : String
  image : Option String
  in_stock : Bool
deriving DecidableEq, Repr

/-- The persistent state of the document store: the two collections in
store order, plus the next fresh identifier the store will assign. -/
structure DB where
  categories : List CategoryDoc
  products : List ProductDoc
  nextOid : Nat
deriving DecidableEq, Repr

/-- One call made to the storage gateway; handlers record their calls so
that the absence of storage access can be stated. -/
inductive StorageCall where
  | findOneCall (coll : String)
  | findManyCall (coll : String)
  | insertCall (coll : String)
  | listNamesCall
deriving DecidableEq, Repr

/-- Modelled from the spec: the gateway `findOne("category", {"slug": s})`
returns the first document in store order whose slug equals `s`, or an
absence marker (spec section 4.1).  The handler guards the call with
`if db else None`, so a missing handle yields the absence marker. -/
def findOneCategoryBySlug (db : Option DB) (s : String) : Option CategoryDoc :=
  match db with
  | none => none
  | some st => st.categories.find? (fun d => decide (d.slug = s))

/-- Modelled from the spec: the gateway `findOne("category", {"_id": i})`. -/
def findOneCategoryById (db : Option DB) (i : ObjectId) : Option CategoryDoc :=
  match db with
  | none => none
  | some st => st.categories.find? (fun d => decide (d.oid = i))

/-- Modelled from the spec: the gateway `findOne("product", {"_id": i})`. -/
def findOneProductById (db : Option DB) (i : ObjectId) : Option ProductDoc :=
  match db with
  | none => none
  | some st => st.products.find? (fun d => decide (d.oid = i))

/-- The category document the store builds from a payload, carrying the
next fresh identifier. -/
def newCategoryDoc (st : DB) (p : CreateCategory) : CategoryDoc :=
  { oid := ⟨st.nextOid⟩, name := p.name, slug := p.slug, image := p.image }

/-- The product document the store builds from a payload, carrying the
next fresh identifier. -/
def newProductDoc (st : DB) (p : CreateProduct) : ProductDoc :=
  { oid := ⟨st.nextOid⟩, title := p.title, description := p.description,
    price := p.price, category := p.category, image := p.image, in_stock := p.in_stock }

/-- Modelled from the spec: `database.create_document("category", doc)`
(spec section 4.1 `insert`): assigns a fresh identifier, appends the
document, and fails with StorageUnavailable when no connection exists. -/
def create_document_category (db : Option DB) (p : CreateCategory) :
    Except String (ObjectId × DB) :=
  match db with
  | none => .error "StorageUnavailable"
  | some st =>
      .ok (⟨st.nextOid⟩,
        { st with
          categories := st.categories ++ [newCategoryDoc st p],
          nextOid := st.nextOid + 1 })

/-- Modelled from the spec: `database.create_document("product", doc)`. -/
def create_document_product (db : Option DB) (p : CreateProduct) :
    Except String (ObjectId × DB) :=
  match db with
  | none => .error "StorageUnavailable"
  | some st =>
      .ok (⟨st.nextOid⟩,
        { st with
          products := st.products ++ [newProductDoc st p],
          nextOid := st.nextOid + 1 })

/-- Case-insensitive membership of `needle` as a contiguous run of `hay`. -/
def listInfixOf (needle : List Char) : List Char → Bool
  | [] => needle.isEmpty
  | c :: t => needle.isPrefixOf (c :: t) || listInfixOf needle t

/-- Case-insensitive substring test: models the store evaluating the filter
`{"$regex": pat, "$options": "i"}` against a title, which the spec describes
as case-insensitive substring matching (spec section 4.1). -/
def containsCI (hay pat : String) : Bool :=
  listInfixOf (pat.toList.map Char.toLower) (hay.toList.map Char.toLower)

/-- The dynamic filter dictionary built by `list_products`. -/
structure ProductFilter where
  categoryEq : Option String
  titleSubstrCI : Option String
deriving DecidableEq, Repr

/-- Modelled from the spec: evaluation of the filter dictionary against a
product document, equality on `category` AND case-insensitive pattern on
`title` when present. -/
def matchesFilter (f : ProductFilter) (d : ProductDoc) : Bool :=
  (match f.categoryEq with
   | none => true
   | some c => decide (d.category = c)) &&
  (match f.titleSubstrCI with
   | none => true
   | some q => containsCI d.title q)

/-- Modelled from the spec: `database.get_documents("category", {}, limit)`
(spec section 4.1 `findMany`): at most `limit` documents in store order;
reads against a missing handle fail (spec section 7 leaves reads against an
uninitialized store as find-nothing-or-error; we model the error branch,
which the handler wraps into its generic 500 envelope either way). -/
def get_documents_category (db : Option DB) (limit : Nat) :
    Except String (List CategoryDoc) :=
  match db with
  | none => .error "StorageUnavailable"
  | some st => .ok (st.categories.take limit)

/-- Modelled from the spec: `database.get_documents("product", filt, limit)`. -/
def get_documents_product (db : Option DB) (f : ProductFilter) (limit : Nat) :
    Except String (List ProductDoc) :=
  match db with
  | none => .error "StorageUnavailable"
  | some st => .ok ((st.products.filter (matchesFilter f)).take limit)

/-- A category item as serialized in a response body. -/
structure CategoryItem where
  idVal : IdValue
  name : String
  slug : String
  image : Option String
deriving DecidableEq, Repr

/-- A product item as serialized in a response body. -/
structure ProductItem where
  idVal : IdValue
  title : String
  description : Option String
  price : Rat
  category : String
  image : Option String
  in_stock : Bool
deriving DecidableEq, Repr

/-- The serialization step `it["_id"] = str(it["_id"])` for a category. -/
def renderCategory (d : CategoryDoc) : CategoryItem :=
  { idVal := .strId (objectIdStr d.oid), name := d.name, slug := d.slug, image := d.image }

/-- The serialization step `it["_id"] = str(it["_id"])` for a product. -/
def renderProduct (d : ProductDoc) : ProductItem :=
  { idVal := .strId (objectIdStr d.oid), title := d.title, description := d.description,
    price := d.price, category := d.category, image := d.image, in_stock := d.in_stock }

/-- Outcome of a GET list endpoint: the `items` body, or an HTTPException. -/
inductive ListResult (α : Type) where
  | ok (items : List α)
  | httpError (status : Nat) (detail : String)
deriving DecidableEq, Repr

/-- Outcome of a POST create endpoint: status code (201 from the route
decorator) with the `item` body (which the code allows to be null when the
re-read finds nothing), or an HTTPException. -/
inductive CreateResult (α : Type) where
  | created (status : Nat) (item : Option α)
  | httpError (status : Nat) (detail : String)
deriving DecidableEq, Repr

/-- Python truthiness of an optional string: `None` and `""` are falsy. -/
def pyTruthy : Option String → Bool
  | none => false
  | some s => decide (s ≠ "")

/-- Handler body of GET /api/categories (src/main.py lines 51-59), after
FastAPI validated `limit`.  Returns the result and the storage calls made. -/
def list_categories_handler (db : Option DB) (limit : Nat) :
    ListResult CategoryItem × List StorageCall :=
  match get_documents_category db limit with
  | .error e => (.httpError 500 e, [.findManyCall "category"])
  | .ok docs => (.ok (docs.map renderCategory), [.findManyCall "category"])

/-- GET /api/categories including the FastAPI `Query(50, ge=1, le=200)`
validation: out-of-range limits are rejected before the handler runs, so no
storage call occurs. -/
def list_categories_endpoint (db : Option DB) (limit : Int) :
    ListResult CategoryItem × List StorageCall :=
  if 1 ≤ limit ∧ limit ≤ 200 then
    list_categories_handler db limit.toNat
  else
    (.httpError 422 "validation error", [])

/-- Handler body of GET /api/products (src/main.py lines 80-97): builds the
filter dictionary with Python truthiness (`if category:`, `if q:`), then
queries the gateway. -/
def list_products_handler (db : Option DB) (category q : Option String) (limit : Nat) :
    ListResult ProductItem × List StorageCall :=
  let filt : ProductFilter :=
    { categoryEq := if pyTruthy category then category else none,
      titleSubstrCI := if pyTruthy q then q else none }
  match get_documents_product db filt limit with
  | .error e => (.httpError 500 e, [.findManyCall "product"])
  | .ok docs => (.ok (docs.map renderProduct), [.findManyCall "product"])

/-- GET /api/products including the FastAPI `limit` validation. -/
def list_products_endpoint (db : Option DB) (category q : Option String) (limit : Int) :
    ListResult ProductItem × List StorageCall :=
  if 1 ≤ limit ∧ limit ≤ 200 then
    list_products_handler db category q limit.toNat
  else
    (.httpError 422 "validation error", [])

/-- Handler of POST /api/categories (src/main.py lines 62-77).  Returns the
result, the resulting storage state, and the storage calls made.  The slug
pre-check uses `db["category"].find_one(...) if db else None`; a raised
HTTPException is re-raised unchanged, and any other failure becomes a 500
carrying the underlying message. -/
def create_category (db : Option DB) (p : CreateCategory) :
    CreateResult CategoryItem × Option DB × List StorageCall :=
  match db with
  | none =>
      -- `exists` is None without a handle, so no duplicate is found and the
      -- handler proceeds to `create_document`, which fails; the generic
      -- except-branch wraps the message into a 500.
      (.httpError 500 "StorageUnavailable", none, [.insertCall "category"])
  | some st =>
      match findOneCategoryBySlug (some st) p.slug with
      | some _ => (.httpError 400 "Slug already exists", some st, [.findOneCall "category"])
      | none =>
          match create_document_category (some st) p with
          | .error e => (.httpError 500 e, some st, [.findOneCall "category", .insertCall "category"])
          | .ok (i, st2) =>
              match findOneCategoryById (some st2) i with
              | some d =>
                  (.created 201 (some (renderCategory d)), some st2,
                   [.findOneCall "category", .insertCall "category", .findOneCall "category"])
              | none =>
                  (.created 201 none, some st2,
                   [.findOneCall "category", .insertCall "category", .findOneCall "category"])

/-- Handler of POST /api/products (src/main.py lines 100-115).  The category
existence pre-check is `db["category"].find_one({"slug": payload.category})
if db else None`; when it yields nothing the handler raises the 400
missing-reference condition before any insert. -/
def create_product (db : Option DB) (p : CreateProduct) :
    CreateResult ProductItem × Option DB × List StorageCall :=
  match db with
  | none =>
      -- `cat` is None without a handle, so the 400 is raised immediately.
      (.httpError 400 "Category does not exist", none, [])
  | some st =>
      match findOneCategoryBySlug (some st) p.category with
      | none => (.httpError 400 "Category does not exist", some st, [.findOneCall "category"])
      | some _ =>
          match create_document_product (some st) p with
          | .error e => (.httpError 500 e, some st, [.findOneCall "category", .insertCall "product"])
          | .ok (i, st2) =>
              match findOneProductById (some st2) i with
              | some d =>
                  (.created 201 (some (renderProduct d)), some st2,
                   [.findOneCall "category", .insertCall "product", .findOneCall "product"])
              | none =>
                  (.created 201 none, some st2,
                   [.findOneCall "category", .insertCall "product", .findOneCall "product"])

/-- The storage handle object as seen by GET /test: whether it exposes a
`name` attribute (with its value), and the outcome of
`list_collection_names()`. -/
structure DBHandle where
  hasName : Bool
  name : String
  listCollections : Except String (List String)

/-- Outcome of `from database import db` inside the diagnostics handler:
the import itself can fail (caught by the outer except), or it yields a
handle that may be None. -/
inductive ImportOutcome where
  | importError (msg : String)
  | imported (handle : Option DBHandle)

/-- Environment flags consumed by GET /test: whether DATABASE_URL and
DATABASE_NAME are set. -/
structure TestEnv where
  databaseUrlSet : Bool
  databaseNameSet : Bool
deriving DecidableEq, Repr

/-- The JSON object returned by GET /test.  `database_url` and
`database_name` start as Python None, hence the Option type. -/
structure TestResponse where
  backend : String
  database : String
  database_url : Option String
  database_name : Option String
  connection_status : String
  collections : List String
deriving DecidableEq, Repr

/-- Handler of GET /test (src/main.py lines 118-149).  Every storage and
every import failure is caught and rendered into the `database` field; the last
two lines unconditionally overwrite `database_url` and `database_name` with
environment presence flags. -/
def test_database (imp : ImportOutcome) (env : TestEnv) : TestResponse :=
  let r0 : TestResponse :=
    { backend := "✅ Running", database := "❌ Not Available", database_url := none,
      database_name := none, connection_status := "Not Connected", collections := [] }
  let r1 : TestResponse :=
    match imp with
    | .importError e => { r0 with database := "❌ Error: " ++ e.take 50 }
    | .imported none => { r0 with database := "⚠️  Available but not initialized" }
    | .imported (some h) =>
        let r2 : TestResponse :=
          { r0 with
            database := "✅ Available",
            database_url := some (if env.databaseUrlSet then "✅ Set" else "❌ Not Set"),
            database_name := some (if h.hasName then h.name else "✅ Connected"),
            connection_status := "Connected" }
        match h.listCollections with
        | .ok cols => { r2 with collections := cols.take 10, database := "✅ Connected & Working" }
        | .error e => { r2 with database := "⚠️  Connected but Error: " ++ e.take 50 }
  { r1 with
    database_url := some (if env.databaseUrlSet then "✅ Set" else "❌ Not Set"),
    database_name := some (if env.databaseNameSet then "✅ Set" else "❌ Not Set") }

/-- The storage handle does not reach a working store: the import failed or
the handle is None.  (A handle whose listing call fails is reachable but
degraded; the code still reports Connected there.) -/
def storageUnreachable : ImportOutcome → Bool
  | .importError _ => true
  | .imported none => true
  | .imported (some _) => false

/-- A category document used for concrete evaluations. -/
def sampleCat : CategoryDoc := { oid := ⟨0⟩, name := "Shoes", slug := "shoes", image := none }

/-- A product document used for concrete evaluations. -/
def sampleProd : ProductDoc :=
  { oid := ⟨1⟩, title := "Sneaker", description := none, price := 50,
    category := "shoes", image := none, in_stock := true }

/-- A store holding one category. -/
def sampleDB : DB := { categories := [sampleCat], products := [], nextOid := 1 }

/-- A store holding one category and one product. -/
def sampleDB2 : DB := { categories := [sampleCat], products := [sampleProd], nextOid := 2 }

/-- Extract the items of a list result (empty on error). -/
def catItemsOf : ListResult CategoryItem → List CategoryItem
  | .ok l => l
  | .httpError _ _ => []

/-- A create-category payload for concrete evaluations. -/
def samplePayloadCat : CreateCategory := { name := "Bags", slug := "bags" }

/-- A create-product payload for concrete evaluations. -/
def samplePayloadProd : CreateProduct := { title := "Sneaker", price := 10, category := "shoes" }

theorem find?_append_right {α : Type} (p : α → Bool) (l : List α) (x : α)
    (hl : ∀ a ∈ l, p a = false) (hx : p x = true) :
    (l ++ [x]).find? p = some x := by
  induction l with
  | nil => simp [List.find?, hx]
  | cons a t ih =>
      have ha := hl a (List.mem_cons_self a t)
      simp only [List.cons_append, List.find?, ha]
      exact ih fun b hb => hl b (List.mem_cons_of_mem a hb)

/-- Claim C1: a create-category request whose slug equals the slug of an
existing category document fails with the 400 duplicate condition carrying
the fixed message "Slug already exists", leaves the store unchanged, and
performs no insert: the only storage call is the slug lookup. -/
theorem slug_duplicate_rejected (st : DB) (p : CreateCategory)
    (h : ∃ d ∈ st.categories, d.slug = p.slug) :
    create_category (some st) p =
      (.httpError 400 "Slug already exists", some st, [.findOneCall "category"]) := by
  obtain ⟨d, hd, hslug⟩ := h
  have hs : (findOneCategoryBySlug (some st) p.slug).isSome = true := by
    simp only [findOneCategoryBySlug, List.find?_isSome]
    exact ⟨d, hd, by simp [hslug]⟩
  obtain ⟨d0, hd0⟩ := Option.isSome_iff_exists.mp hs
  simp [create_category, hd0]

theorem slug_duplicate_rejected_witness :
    create_category (some sampleDB) { name := "Shoes again", slug := "shoes" } =
      (.httpError 400 "Slug already exists", some sampleDB, [.findOneCall "category"]) :=
  slug_duplicate_rejected sampleDB { name := "Shoes again", slug := "shoes" }
    ⟨sampleCat, by simp [sampleDB], rfl⟩

/-- Claim C2: a create-product request whose category field equals no
existing category slug fails with the 400 missing-reference condition
(detail "Category does not exist"), leaves the store unchanged, and
performs no insert: the only storage call is the category lookup. -/
theorem missing_category_rejected (st : DB) (p : CreateProduct)
    (h : ∀ d ∈ st.categories, d.slug ≠ p.category) :
    create_product (some st) p =
      (.httpError 400 "Category does not exist", some st, [.findOneCall "category"]) := by
  have hn : findOneCategoryBySlug (some st) p.category = none := by
    simp only [findOneCategoryBySlug, List.find?_eq_none, decide_eq_true_eq]
    exact h
  simp [create_product, hn]

theorem missing_category_rejected_witness :
    create_product (some sampleDB) { title := "Boat", price := 7, category := "boats" } =
      (.httpError 400 "Category does not exist", some sampleDB, [.findOneCall "category"]) :=
  missing_category_rejected sampleDB { title := "Boat", price := 7, category := "boats" }
    (by decide)

/-- Claim C9: with an uninitialized storage handle, every POST /api/products
request fails with the 400 missing-reference condition "Category does not
exist", for any payload, with no storage call made: the guarded lookup
yields None and the handler raises before reaching the insert. -/
theorem create_product_no_handle (p : CreateProduct) :
    create_product none p = (.httpError 400 "Category does not exist", none, []) := rfl

/-- Claim C10: a product-list request whose category or q query parameter is
the empty string behaves exactly as if that parameter were absent, because
the handler builds the filter with Python truthiness. -/
theorem empty_filters_ignored (db : Option DB) (c q : Option String) (limit : Int) :
    list_products_endpoint db (some "") q limit = list_products_endpoint db none q limit ∧
    list_products_endpoint db c (some "") limit = list_products_endpoint db c none limit := by
  constructor <;> rfl

/-- Claim C5: GET /test always produces a status object (the backend field
reports the process as running in every storage state), and whenever the
storage handle is unreachable (import failed or handle is None) the database
field is an error-descriptive string while connection_status is not
"Connected". -/
theorem diagnostics_never_raises (imp : ImportOutcome) (env : TestEnv) :
    (test_database imp env).backend = "✅ Running" ∧
    (storageUnreachable imp = true →
      ((test_database imp env).database = "⚠️  Available but not initialized" ∨
        ∃ t, (test_database imp env).database = "❌ Error: " ++ t) ∧
      (test_database imp env).connection_status ≠ "Connected") := by
  rcases imp with e | h
  · exact ⟨rfl, fun _ => ⟨Or.inr ⟨e.take 50, rfl⟩, by simp [test_database]⟩⟩
  · rcases h with _ | h
    · exact ⟨rfl, fun _ => ⟨Or.inl rfl, by simp [test_database]⟩⟩
    · refine ⟨?_, fun hc => by simp [storageUnreachable] at hc⟩
      rcases hl : h.listCollections with cols | e <;> simp [test_database, hl]

theorem diagnostics_never_raises_witness :
    (test_database (.imported none) ⟨false, false⟩).backend = "✅ Running" ∧
    (test_database (.imported none) ⟨false, false⟩).connection_status ≠ "Connected" := by
  have h := diagnostics_never_raises (.imported none) ⟨false, false⟩
  exact ⟨h.1, (h.2 rfl).2⟩

/-- Claim C7 counterexample: with a working handle whose reported store name
is "mydb" and both environment values set, the diagnostics response carries
the DATABASE_NAME presence flag, not the store name: the unconditional
overwrite on the last lines of the handler discards the reported name. -/
theorem store_name_not_in_response :
    (test_database (.imported (some ⟨true, "mydb", .ok ["category"]⟩))
        ⟨true, true⟩).database_name ≠ some "mydb" := by
  decide

/-- Claim C7 as amended: the final diagnostics response carries only the
presence flags of the two environment-derived configuration values in its
database_name and database_url fields; the reported name of the store, although
computed transiently, never appears in the returned object. -/
theorem diagnostics_env_flags (imp : ImportOutcome) (env : TestEnv) :
    (test_database imp env).database_name =
      some (if env.databaseNameSet then "✅ Set" else "❌ Not Set") ∧
    (test_database imp env).database_url =
      some (if env.databaseUrlSet then "✅ Set" else "❌ Not Set") := by
  constructor <;> rfl

/-- Claim C3: for every limit in [1,200] each list endpoint returns at most
limit items; for every limit outside that range both list endpoints return
the validation error with an empty storage-call trace. -/
theorem limit_bounds (db : Option DB) (limit : Int) :
    ((1 ≤ limit ∧ limit ≤ 200) →
      (∀ items calls, list_categories_endpoint db limit = (.ok items, calls) →
        (items.length : Int) ≤ limit) ∧
      (∀ c q items calls, list_products_endpoint db c q limit = (.ok items, calls) →
        (items.length : Int) ≤ limit)) ∧
    (¬(1 ≤ limit ∧ limit ≤ 200) →
      list_categories_endpoint db limit = (.httpError 422 "validation error", []) ∧
      ∀ c q, list_products_endpoint db c q limit = (.httpError 422 "validation error", [])) := by
  constructor
  · intro hin
    constructor
    · intro items calls h
      rcases db with _ | st
      · simp [list_categories_endpoint, hin, list_categories_handler,
          get_documents_category] at h
      · simp [list_categories_endpoint, hin, list_categories_handler,
          get_documents_category] at h
        have hlen : items.length ≤ limit.toNat := by
          rw [← h.1]
          simp
        omega
    · intro c q items calls h
      rcases db with _ | st
      · simp [list_products_endpoint, hin, list_products_handler,
          get_documents_product] at h
      · simp [list_products_endpoint, hin, list_products_handler,
          get_documents_product] at h
        have hlen : items.length ≤ limit.toNat := by
          rw [← h.1]
          simp
        omega
  · intro hout
    refine ⟨?_, fun c q => ?_⟩ <;>
      simp [list_categories_endpoint, list_products_endpoint, hout]

theorem limit_bounds_witness :
    list_categories_endpoint (some sampleDB) 0 = (.httpError 422 "validation error", []) ∧
    ((catItemsOf (list_categories_endpoint (some sampleDB) 5).1).length : Int) ≤ 5 := by
  have h0 := limit_bounds (some sampleDB) 0
  have h5 := limit_bounds (some sampleDB) 5
  refine ⟨(h0.2 (by decide)).1, ?_⟩
  exact (h5.1 (by decide)).1 (catItemsOf (list_categories_endpoint (some sampleDB) 5).1)
    [.findManyCall "category"] (by decide)

/-- Claim C4: when a product-list request supplies both a nonempty category
filter and a nonempty free-text q filter, every returned item has its
category exactly equal to the given value AND its title containing q as a
case-insensitive substring: the two filters are combined with logical AND. -/
theorem product_filters_and (st : DB) (c q : String) (limit : Int)
    (items : List ProductItem) (calls : List StorageCall)
    (hc : c ≠ "") (hq : q ≠ "")
    (h : list_products_endpoint (some st) (some c) (some q) limit = (.ok items, calls)) :
    ∀ it ∈ items, it.category = c ∧ containsCI it.title q = true := by
  intro it hit
  by_cases hin : 1 ≤ limit ∧ limit ≤ 200
  · simp [list_products_endpoint, hin, list_products_handler,
      get_documents_product, pyTruthy, hc, hq] at h
    rw [← h.1] at hit
    have hit2 := List.mem_of_mem_take hit
    obtain ⟨d, hd, hrender⟩ := List.mem_map.mp hit2
    have hm := (List.mem_filter.mp hd).2
    simp only [matchesFilter, Bool.and_eq_true, decide_eq_true_eq] at hm
    rw [← hrender]
    exact ⟨hm.1, hm.2⟩
  · simp [list_products_endpoint, hin] at h

theorem product_filters_and_witness :
    (renderProduct sampleProd).category = "shoes" ∧
    containsCI (renderProduct sampleProd).title "sneak" = true := by
  have h := product_filters_and sampleDB2 "shoes" "sneak" 50
    [renderProduct sampleProd] [.findManyCall "product"]
    (by decide) (by decide) (by rfl)
  exact h (renderProduct sampleProd) (by simp)

/-- Claim C6: on every successful create (category and product), the handler
inserts the document (the store gains exactly the new document and advances
its identifier counter), re-reads the inserted document by its newly
assigned identifier (the trace ends with a findOne after the insert), and
returns that canonical stored form as the response item with status 201. -/
theorem create_success_canonical (st : DB) (pc : CreateCategory) (pp : CreateProduct)
    (hfc : ∀ d ∈ st.categories, d.oid ≠ ⟨st.nextOid⟩)
    (hfp : ∀ d ∈ st.products, d.oid ≠ ⟨st.nextOid⟩)
    (hnodup : ∀ d ∈ st.categories, d.slug ≠ pc.slug)
    (hcat : ∃ d ∈ st.categories, d.slug = pp.category) :
    create_category (some st) pc =
      (.created 201 (some (renderCategory (newCategoryDoc st pc))),
       some { st with
         categories := st.categories ++ [newCategoryDoc st pc],
         nextOid := st.nextOid + 1 },
       [.findOneCall "category", .insertCall "category", .findOneCall "category"]) ∧
    create_product (some st) pp =
      (.created 201 (some (renderProduct (newProductDoc st pp))),
       some { st with
         products := st.products ++ [newProductDoc st pp],
         nextOid := st.nextOid + 1 },
       [.findOneCall "category", .insertCall "product", .findOneCall "product"]) := by
  constructor
  · have hn : findOneCategoryBySlug (some st) pc.slug = none := by
      simp only [findOneCategoryBySlug, List.find?_eq_none, decide_eq_true_eq]
      exact hnodup
    have hre : (st.categories ++ [newCategoryDoc st pc]).find?
          (fun d => decide (d.oid = ⟨st.nextOid⟩)) =
        some (newCategoryDoc st pc) :=
      find?_append_right _ _ _ (fun a ha => by simp [hfc a ha])
        (by simp [newCategoryDoc])
    simp [create_category, hn, create_document_category, findOneCategoryById, hre]
  · obtain ⟨d, hd, hslug⟩ := hcat
    have hs : (findOneCategoryBySlug (some st) pp.category).isSome = true := by
      simp only [findOneCategoryBySlug, List.find?_isSome]
      exact ⟨d, hd, by simp [hslug]⟩
    obtain ⟨d0, hd0⟩ := Option.isSome_iff_exists.mp hs
    have hre : (st.products ++ [newProductDoc st pp]).find?
          (fun d => decide (d.oid = ⟨st.nextOid⟩)) =
        some (newProductDoc st pp) :=
      find?_append_right _ _ _ (fun a ha => by simp [hfp a ha])
        (by simp [newProductDoc])
    simp [create_product, hd0, create_document_product, findOneProductById, hre]

theorem create_success_canonical_witness :
    (create_category (some sampleDB) samplePayloadCat).1 =
      .created 201 (some ⟨.strId "1", "Bags", "bags", none⟩) ∧
    (create_product (some sampleDB) samplePayloadProd).1 =
      .created 201 (some ⟨.strId "1", "Sneaker", none, 10, "shoes", none, true⟩) := by
  have h := create_success_canonical sampleDB samplePayloadCat samplePayloadProd
    (by decide) (by decide) (by decide) (by decide)
  refine ⟨?_, ?_⟩
  · rw [h.1]
    rfl
  · rw [h.2]
    rfl

/-- Claim C8: every document identifier crossing the HTTP boundary, in every
item of every list response and in the item of every successful create
response, is rendered in string form; the store-native identifier type never
appears in a response item. -/
theorem ids_stringified (db : Option DB) (limit : Int) (c q : Option String)
    (pc : CreateCategory) (pp : CreateProduct) :
    (∀ items calls, list_categories_endpoint db limit = (.ok items, calls) →
      ∀ it ∈ items, it.idVal.isStr = true) ∧
    (∀ items calls, list_products_endpoint db c q limit = (.ok items, calls) →
      ∀ it ∈ items, it.idVal.isStr = true) ∧
    (∀ s it st2 calls, create_category db pc = (.created s (some it), st2, calls) →
      it.idVal.isStr = true) ∧
    (∀ s it st2 calls, create_product db pp = (.created s (some it), st2, calls) →
      it.idVal.isStr = true) := by
  refine ⟨?_, ?_, ?_, ?_⟩
  · intro items calls h it hit
    by_cases hin : 1 ≤ limit ∧ limit ≤ 200
    · rcases db with _ | st
      · simp [list_categories_endpoint, hin, list_categories_handler,
          get_documents_category] at h
      · simp [list_categories_endpoint, hin, list_categories_handler,
          get_documents_category] at h
        rw [← h.1] at hit
        obtain ⟨d, -, hrender⟩ := List.mem_map.mp (List.mem_of_mem_take hit)
        rw [← hrender]
        rfl
    · simp [list_categories_endpoint, hin] at h
  · intro items calls h it hit
    by_cases hin : 1 ≤ limit ∧ limit ≤ 200
    · rcases db with _ | st
      · simp [list_products_endpoint, hin, list_products_handler,
          get_documents_product] at h
      · simp [list_products_endpoint, hin, list_products_handler,
          get_documents_product] at h
        rw [← h.1] at hit
        obtain ⟨d, -, hrender⟩ := List.mem_map.mp (List.mem_of_mem_take hit)
        rw [← hrender]
        rfl
    · simp [list_products_endpoint, hin] at h
  · intro s it st2 calls h
    rcases db with _ | st
    · simp [create_category] at h
    · rcases hfind : findOneCategoryBySlug (some st) pc.slug with _ | d0
      · rcases hre : findOneCategoryById
            (some { st with
              categories := st.categories ++ [newCategoryDoc st pc],
              nextOid := st.nextOid + 1 }) ⟨st.nextOid⟩ with _ | d1
        · simp [create_category, hfind, create_document_category, hre] at h
        · simp [create_category, hfind, create_document_category, hre] at h
          rw [← h.1.2]
          rfl
      · simp [create_category, hfind] at h
  · intro s it st2 calls h
    rcases db with _ | st
    · simp [create_product] at h
    · rcases hfind : findOneCategoryBySlug (some st) pp.category with _ | d0
      · simp [create_product, hfind] at h
      · rcases hre : findOneProductById
            (some { st with
              products := st.products ++ [newProductDoc st pp],
              nextOid := st.nextOid + 1 }) ⟨st.nextOid⟩ with _ | d1
        · simp [create_product, hfind, create_document_product, hre] at h
        · simp [create_product, hfind, create_document_product, hre] at h
          rw [← h.1.2]
          rfl

theorem ids_stringified_witness :
    (renderCategory sampleCat).idVal.isStr = true := by
  have h := ids_stringified (some sampleDB) 5 none none
    { name := "X", slug := "x" } { title := "T", price := 1, category := "shoes" }
  exact h.1 [renderCategory sampleCat] [.findManyCall "category"] (by decide)
    (renderCategory sampleCat) (by simp)

end Ecommerce
